import Mathlib

/-!
Verification of the puppet_mode plugin (a 2D character puppeteering
add-on). The definitions below are a shallow embedding of the pure parts
of the source: the configuration tables of `constants.py`, the layer-name
derivation of `core/properties.py`, the rig construction of
`core/rig_builder.py` and the layer-visibility logic of
`operators/draw_part.py`. Bone positions carry two decimal places in the
source; they are embedded as integers scaled by 100, so that the exact
equality tests of the source (parent tail = child head) are mirrored
exactly.
-/

namespace PuppetMode

/-- Python str.startswith, embedded on the character lists so that it
computes by kernel reduction. -/
def pyStartsWith (s p : String) : Bool := p.data.isPrefixOf s.data

/-- Python str.endswith, embedded on the character lists so that it
computes by kernel reduction. -/
def pyEndsWith (s p : String) : Bool := p.data.isSuffixOf s.data

/-- CHARACTER_VIEWS from constants.py. -/
def CHARACTER_VIEWS : List String := ["Front", "Quarter_L", "Quarter_R", "Profile_L", "Profile_R"]

/-- HAND_POSES from constants.py. -/
def HAND_POSES : List String := ["Open", "Fist", "Point"]

/-- ROTATION_VIEWS_FULL from constants.py: CHARACTER_VIEWS plus Back. -/
def ROTATION_VIEWS_FULL : List String := CHARACTER_VIEWS ++ ["Back"]

/-- ROTATION_VIEWS_SIMPLE from constants.py. -/
def ROTATION_VIEWS_SIMPLE : List String := ["Front", "Side"]

/-- HAND_ROTATION_VIEWS from constants.py. -/
def HAND_ROTATION_VIEWS : List String := ["Palm", "Back"]

/-- DRAWABLE_PARTS from constants.py. -/
def DRAWABLE_PARTS : List String :=
  ["Face_Features", "Mouth", "Head", "Body", "Arm_L", "Arm_R",
   "Hand_L", "Hand_R", "Leg_L", "Leg_R", "Foot_L", "Foot_R"]

/-- VIEW_DEPENDENT_PARTS from constants.py. -/
def VIEW_DEPENDENT_PARTS : List String := ["Head", "Body", "Arm_L", "Arm_R", "Leg_L", "Leg_R"]

/-- VIEW_INDEPENDENT_PARTS from constants.py. -/
def VIEW_INDEPENDENT_PARTS : List String :=
  ["Face_Features", "Mouth", "Hand_L", "Hand_R", "Foot_L", "Foot_R"]

/-- GP_LAYER_STRUCTURE as produced by `_generate_layer_structure`: the
view-dependent parts get one layer per character view, the
view-independent hand parts one layer per hand pose, and every other
view-independent part a single layer named after itself. The Python dict
is embedded as an association list in insertion order. -/
def GP_LAYER_STRUCTURE : List (String × List String) :=
  (VIEW_DEPENDENT_PARTS.map fun part =>
    (part, CHARACTER_VIEWS.map fun view => part ++ "_" ++ view)) ++
  (VIEW_INDEPENDENT_PARTS.map fun part =>
    (part, if pyStartsWith part "Hand_"
           then HAND_POSES.map fun pose => part ++ "_" ++ pose
           else [part]))

/-- Dictionary lookup in GP_LAYER_STRUCTURE. -/
def lookupStructure (part : String) : Option (List String) :=
  (GP_LAYER_STRUCTURE.find? fun e => e.1 = part).map Prod.snd

/-- get_all_layer_names from constants.py: the concatenation of all the
value lists of GP_LAYER_STRUCTURE, in insertion order. -/
def get_all_layer_names : List String :=
  (GP_LAYER_STRUCTURE.map Prod.snd).flatten

/-- get_total_drawable_parts from constants.py. -/
def get_total_drawable_parts : Nat := get_all_layer_names.length

/-- get_layers_for_part from constants.py. The optional view argument is
embedded as an Option; the Python test `if view` is a truthiness test, so
both None and the empty string fall through to the full layer list. -/
def get_layers_for_part (part : String) (view : Option String) : List String :=
  match lookupStructure part with
  | none => []
  | some layers =>
    match view with
    | none => layers
    | some v =>
      if v ≠ "" ∧ part ∈ VIEW_DEPENDENT_PARTS then
        if (part ++ "_" ++ v) ∈ layers then [part ++ "_" ++ v] else []
      else layers

/-- Reading of a supplied view in the specification sense: the Python
call sites either omit the argument or pass a (nonempty) view name, and
the source guards with a truthiness test. -/
def viewSupplied : Option String → Bool
  | none => false
  | some v => v ≠ ""

/-- Modelled from the words of the claim about get_layers_for_part: empty
list when the part is not a key of GP_LAYER_STRUCTURE; the singleton
variant (or empty list) when a view is supplied for a view-dependent
part; the full layer list of the part in every other case. -/
def layersForPartClaim (part : String) (view : Option String) : List String :=
  if (GP_LAYER_STRUCTURE.find? fun e => e.1 = part).isNone then []
  else if viewSupplied view ∧ part ∈ VIEW_DEPENDENT_PARTS then
    if (part ++ "_" ++ view.getD "") ∈ ((lookupStructure part).getD []) then
      [part ++ "_" ++ view.getD ""]
    else []
  else (lookupStructure part).getD []

/-- get_active_layers_for_view from constants.py: one layer per drawable
part, choosing the view variant for view-dependent parts and the pose
variant for hands. The Python for-append loop is embedded as a map. -/
def get_active_layers_for_view (view : String) (hand_pose : String) : List String :=
  DRAWABLE_PARTS.map fun part =>
    if part ∈ VIEW_DEPENDENT_PARTS then part ++ "_" ++ view
    else if pyStartsWith part "Hand_" then part ++ "_" ++ hand_pose
    else part

/-- LAYER_TO_BONE as produced by `_generate_layer_to_bone`, embedded as
an association list in insertion order. -/
def LAYER_TO_BONE : List (String × String) :=
  (CHARACTER_VIEWS.map fun view => ("Head_" ++ view, "Head")) ++
  [("Face_Features", "Head"), ("Mouth", "Jaw")] ++
  (CHARACTER_VIEWS.map fun view => ("Body_" ++ view, "Chest")) ++
  ((CHARACTER_VIEWS.map fun view =>
    [("Arm_L_" ++ view, "Shoulder_L"), ("Arm_R_" ++ view, "Shoulder_R")]).flatten) ++
  ((HAND_POSES.map fun pose =>
    [("Hand_L_" ++ pose, "Hand_L"), ("Hand_R_" ++ pose, "Hand_R")]).flatten) ++
  ((CHARACTER_VIEWS.map fun view =>
    [("Leg_L_" ++ view, "Hips"), ("Leg_R_" ++ view, "Hips")]).flatten) ++
  [("Foot_L", "Foot_L"), ("Foot_R", "Foot_R")]

/-- Dictionary lookup in LAYER_TO_BONE. -/
def layerBone (layer : String) : Option String :=
  (LAYER_TO_BONE.find? fun e => e.1 = layer).map Prod.snd

/-- get_current_layer_name from core/properties.py, with the relevant
selector state (part, character_view, hand_pose) passed explicitly. -/
def get_current_layer_name (part view pose : String) : String :=
  if part ∈ ["Face_Features", "Mouth"] then part
  else if part ∈ ["Foot_L", "Foot_R"] then part
  else if pyStartsWith part "Hand_" then part ++ "_" ++ pose
  else if part ∈ VIEW_DEPENDENT_PARTS then part ++ "_" ++ view
  else part

/-- Modelled from the words of the claim about get_current_layer_name:
the part itself for the four listed names, the pose variant for hand
parts, the view variant for view-dependent parts, the part unchanged
otherwise. -/
def currentLayerNameClaim (part view pose : String) : String :=
  if part = "Face_Features" ∨ part = "Mouth" ∨ part = "Foot_L" ∨ part = "Foot_R" then part
  else if pyStartsWith part "Hand_" then part ++ "_" ++ pose
  else if part ∈ VIEW_DEPENDENT_PARTS then part ++ "_" ++ view
  else part

/-- Forest of BONE_HIERARCHY schema nodes: either empty, or a first
entry (bone name, head and tail positions, children forest) followed by
the rest of the entries. Positions are the literals of constants.py times
100 (every coordinate there has at most two decimal places), so equality
of embedded positions is equality of source positions. -/
inductive BoneForest where
  | nil
  | cons (name : String) (head tail : Int × Int × Int) (children rest : BoneForest)
deriving DecidableEq

/-- Builds a forest from a list of entries, keeping the dict insertion
order of the source. -/
def forestOf (l : List (String × (Int × Int × Int) × (Int × Int × Int) × BoneForest)) : BoneForest :=
  l.foldr (fun e acc => .cons e.1 e.2.1 e.2.2.1 e.2.2.2 acc) .nil

/-- BONE_HIERARCHY from constants.py, a nesting of dictionaries embedded
as a forest in insertion order (the top level holds Root alone). -/
def BONE_HIERARCHY : BoneForest :=
  forestOf [("Root", (0, 0, 0), (0, 0, 10), forestOf [("Spine", (0, 0, 90), (0, 0, 110), forestOf [("Chest", (0, 0, 110), (0, 0, 140), forestOf [("Neck", (0, 0, 140), (0, 0, 155), forestOf [("Head", (0, 0, 155), (0, 0, 185), forestOf [("Eye_L", (6, -8, 175), (6, -12, 175), forestOf []),
 ("Eye_R", (-6, -8, 175), (-6, -12, 175), forestOf []),
 ("Eyebrow_L", (6, -8, 180), (6, -10, 180), forestOf []),
 ("Eyebrow_R", (-6, -8, 180), (-6, -10, 180), forestOf []),
 ("Jaw", (0, -5, 165), (0, -10, 160), forestOf [])])]),
 ("Shoulder_L", (5, 0, 135), (15, 0, 135), forestOf [("Arm_Upper_L", (15, 0, 135), (40, 0, 135), forestOf [("Arm_Lower_L", (40, 0, 135), (62, -4, 132), forestOf [("Hand_L", (62, -4, 132), (72, -4, 132), forestOf [("Thumb_L_1", (66, -6, 132), (66, -10, 132), forestOf [("Thumb_L_2", (66, -10, 132), (66, -13, 132), forestOf [("Thumb_L_3", (66, -13, 132), (66, -15, 132), forestOf [])])]),
 ("Index_L_1", (72, -6, 132), (76, -6, 132), forestOf [("Index_L_2", (76, -6, 132), (79, -6, 132), forestOf [("Index_L_3", (79, -6, 132), (81, -6, 132), forestOf [])])]),
 ("Middle_L_1", (72, -4, 132), (77, -4, 132), forestOf [("Middle_L_2", (77, -4, 132), (81, -4, 132), forestOf [("Middle_L_3", (81, -4, 132), (84, -4, 132), forestOf [])])]),
 ("Ring_L_1", (72, -2, 132), (76, -2, 132), forestOf [("Ring_L_2", (76, -2, 132), (79, -2, 132), forestOf [("Ring_L_3", (79, -2, 132), (81, -2, 132), forestOf [])])]),
 ("Pinky_L_1", (72, 0, 132), (75, 0, 132), forestOf [("Pinky_L_2", (75, 0, 132), (77, 0, 132), forestOf [("Pinky_L_3", (77, 0, 132), (79, 0, 132), forestOf [])])])])])])]),
 ("Shoulder_R", (-5, 0, 135), (-15, 0, 135), forestOf [("Arm_Upper_R", (-15, 0, 135), (-40, 0, 135), forestOf [("Arm_Lower_R", (-40, 0, 135), (-62, -4, 132), forestOf [("Hand_R", (-62, -4, 132), (-72, -4, 132), forestOf [("Thumb_R_1", (-66, -6, 132), (-66, -10, 132), forestOf [("Thumb_R_2", (-66, -10, 132), (-66, -13, 132), forestOf [("Thumb_R_3", (-66, -13, 132), (-66, -15, 132), forestOf [])])]),
 ("Index_R_1", (-72, -6, 132), (-76, -6, 132), forestOf [("Index_R_2", (-76, -6, 132), (-79, -6, 132), forestOf [("Index_R_3", (-79, -6, 132), (-81, -6, 132), forestOf [])])]),
 ("Middle_R_1", (-72, -4, 132), (-77, -4, 132), forestOf [("Middle_R_2", (-77, -4, 132), (-81, -4, 132), forestOf [("Middle_R_3", (-81, -4, 132), (-84, -4, 132), forestOf [])])]),
 ("Ring_R_1", (-72, -2, 132), (-76, -2, 132), forestOf [("Ring_R_2", (-76, -2, 132), (-79, -2, 132), forestOf [("Ring_R_3", (-79, -2, 132), (-81, -2, 132), forestOf [])])]),
 ("Pinky_R_1", (-72, 0, 132), (-75, 0, 132), forestOf [("Pinky_R_2", (-75, 0, 132), (-77, 0, 132), forestOf [("Pinky_R_3", (-77, 0, 132), (-79, 0, 132), forestOf [])])])])])])])]),
 ("Hips", (0, 0, 90), (0, 0, 85), forestOf [("Leg_Upper_L", (10, 0, 85), (10, -2, 45), forestOf [("Leg_Lower_L", (10, -2, 45), (10, 3, 8), forestOf [("Foot_L", (10, 3, 8), (10, -10, 2), forestOf [])])]),
 ("Leg_Upper_R", (-10, 0, 85), (-10, -2, 45), forestOf [("Leg_Lower_R", (-10, -2, 45), (-10, 3, 8), forestOf [("Foot_R", (-10, 3, 8), (-10, -10, 2), forestOf [])])])])])])]

/-- get_bone_names_flat from constants.py: preorder traversal appending
each bone name and then descending into its children. -/
def boneNamesAux : BoneForest → List String
  | .nil => []
  | .cons n _ _ cs rest => n :: (boneNamesAux cs ++ boneNamesAux rest)

/-- get_bone_names_flat applied to BONE_HIERARCHY. -/
def get_bone_names_flat : List String := boneNamesAux BONE_HIERARCHY

/-- An edit bone as `_build_bones_recursive` produces it: name, head and
tail positions, parent bone name, and the use_connect flag. -/
structure EditBone where
  name : String
  head : Int × Int × Int
  tail : Int × Int × Int
  parent : Option String
  useConnect : Bool
deriving DecidableEq

/-- The recursion of `_build_bones_recursive`: for each entry, create the
bone with the schema head and tail, give it the enclosing bone as parent,
and set use_connect exactly when the parent tail equals the head; then
recurse into the children with this bone as parent. The parent is carried
as its name and tail position, which is all the source reads of it. -/
def buildBones : BoneForest → Option (String × (Int × Int × Int)) → List EditBone
  | .nil, _ => []
  | .cons n h t cs rest, parent =>
    { name := n, head := h, tail := t,
      parent := parent.map Prod.fst,
      useConnect := match parent with
        | some p => decide (p.2 = h)
        | none => false } ::
    (buildBones cs (some (n, t)) ++ buildBones rest parent)

/-- Flattening of the schema itself, independent of buildBones: for each
entry, its name, head, tail and the name and tail of the enclosing entry.
This is the reference data the construction is checked against. -/
def schemaEntries : BoneForest → Option (String × (Int × Int × Int)) →
    List (String × (Int × Int × Int) × (Int × Int × Int) × Option (String × (Int × Int × Int)))
  | .nil, _ => []
  | .cons n h t cs rest, parent =>
    (n, h, t, parent) :: (schemaEntries cs (some (n, t)) ++ schemaEntries rest parent)

set_option maxRecDepth 100000

/-- C5: the derived current layer name is the part itself for
Face_Features, Mouth, Foot_L and Foot_R; the part with the hand pose
appended for parts starting with Hand_; the part with the character view
appended for parts in VIEW_DEPENDENT_PARTS; and the part unchanged in
every remaining case. -/
theorem claim_C5_get_current_layer_name (part view pose : String) :
    get_current_layer_name part view pose = currentLayerNameClaim part view pose := by
  unfold get_current_layer_name currentLayerNameClaim
  simp only [List.mem_cons, List.not_mem_nil, or_false]
  split_ifs <;> first | rfl | tauto

/-- C6 counterexample: the flat list of Grease Pencil layer names has 40
entries, which refutes the claimed bound of at most 30. -/
theorem claim_C6_counterexample :
    get_all_layer_names.length = 40 ∧ ¬ (get_all_layer_names.length ≤ 30) := by decide

/-- C6 amended: get_all_layer_names() has 40 entries (the count returned
by get_total_drawable_parts()), and get_bone_names_flat() has 55 entries;
both flat lists exceed 30. -/
theorem claim_C6_enumeration_sizes :
    get_all_layer_names.length = 40 ∧ get_total_drawable_parts = 40 ∧
    get_bone_names_flat.length = 55 := by decide

/-- C7: get_layers_for_part returns the empty list when the part is not a
key of GP_LAYER_STRUCTURE; the one-element view variant (or the empty
list when that variant is not among the layers of the part) when a view
is supplied and the part is view-dependent; and the full layer list of
the part in every other case. -/
theorem claim_C7_get_layers_for_part (part : String) (view : Option String) :
    get_layers_for_part part view = layersForPartClaim part view := by
  unfold get_layers_for_part layersForPartClaim lookupStructure viewSupplied
  cases hf : GP_LAYER_STRUCTURE.find? (fun e => e.1 = part) with
  | none => simp
  | some e =>
    cases view with
    | none => simp
    | some v =>
      by_cases hv : v = ""
      · simp [hv]
      · by_cases hvd : part ∈ VIEW_DEPENDENT_PARTS
        · simp [hv, hvd]
        · simp [hv, hvd]

/-- C9: for every character view and every hand pose,
get_active_layers_for_view returns exactly one layer per drawable part (a
list of length 12 whose entry at each position is one of the layers of
the drawable part at the same position), and every returned name is among
get_all_layer_names(). -/
theorem claim_C9_get_active_layers_for_view :
    ∀ view ∈ CHARACTER_VIEWS, ∀ pose ∈ HAND_POSES,
    (get_active_layers_for_view view pose).length = 12 ∧
    DRAWABLE_PARTS.length = 12 ∧
    (((get_active_layers_for_view view pose).zip DRAWABLE_PARTS).all fun e =>
      decide (e.1 ∈ (lookupStructure e.2).getD [])) = true ∧
    ∀ n ∈ get_active_layers_for_view view pose, n ∈ get_all_layer_names := by decide

/-- C9 witness: the statement holds at the concrete view Front with the
concrete hand pose Open. -/
theorem claim_C9_witness :
    (get_active_layers_for_view "Front" "Open").length = 12 ∧
    DRAWABLE_PARTS.length = 12 ∧
    (((get_active_layers_for_view "Front" "Open").zip DRAWABLE_PARTS).all fun e =>
      decide (e.1 ∈ (lookupStructure e.2).getD [])) = true ∧
    ∀ n ∈ get_active_layers_for_view "Front" "Open", n ∈ get_all_layer_names :=
  claim_C9_get_active_layers_for_view "Front" (by decide) "Open" (by decide)

/-- C10: every layer name of get_all_layer_names() is a key of the
LAYER_TO_BONE mapping, and the bone it maps to occurs in the flat bone
name list of BONE_HIERARCHY. -/
theorem claim_C10_layer_to_bone_total :
    ∀ layer ∈ get_all_layer_names, ∃ bone ∈ get_bone_names_flat,
      layerBone layer = some bone := by decide

/-- C10 witness: the statement holds at the concrete layer Face_Features. -/
theorem claim_C10_witness :
    ∃ bone ∈ get_bone_names_flat, layerBone "Face_Features" = some bone :=
  claim_C10_layer_to_bone_total "Face_Features" (by decide)

/-- C3: armature creation builds exactly one bone per BONE_HIERARCHY
entry (the emitted names are the schema's preorder name list, which has
no duplicates); each bone's head, tail and parent are those of its schema
entry (no parent for Root); and use_connect is set on a bone exactly when
it has a parent whose tail position equals the bone's head position. -/
theorem claim_C3_build_bones_recursive :
    ((buildBones BONE_HIERARCHY none).map EditBone.name = get_bone_names_flat) ∧
    get_bone_names_flat.Nodup ∧
    (∀ b ∈ buildBones BONE_HIERARCHY none,
      ∃ e ∈ schemaEntries BONE_HIERARCHY none,
        e.1 = b.name ∧ e.2.1 = b.head ∧ e.2.2.1 = b.tail ∧
        e.2.2.2.map Prod.fst = b.parent) ∧
    (∀ b ∈ buildBones BONE_HIERARCHY none,
      (b.useConnect = true ↔ ∃ p ∈ buildBones BONE_HIERARCHY none,
        some p.name = b.parent ∧ p.tail = b.head)) := by decide

/-- A Grease Pencil layer as the creation loop of rig_builder produces
it: its name and its initial hide flag. -/
structure GPLayer where
  name : String
  hide : Bool
deriving DecidableEq

/-- Layer creation of `_create_gp_legacy` (the v3 variant runs the same
loop): iterate the reversed get_all_layer_names list, create one layer
per name, and hide it unless the name ends with "_Front". The collection
records the layers in creation order. -/
def createGpLayers : List GPLayer :=
  get_all_layer_names.reverse.map fun n => { name := n, hide := !(pyEndsWith n "_Front") }

/-- C4: Grease Pencil creation makes exactly one layer for each name of
get_all_layer_names(), in reversed list order, a layer being initially
hidden exactly when its name does not end with "_Front"; concretely the
six layers left visible are the Front variants of the six view-dependent
parts. -/
theorem claim_C4_gp_layer_creation :
    (createGpLayers.map GPLayer.name = get_all_layer_names.reverse) ∧
    (∀ n ∈ get_all_layer_names, (createGpLayers.filter fun l => l.name = n).length = 1) ∧
    (∀ l ∈ createGpLayers, l.hide = !(pyEndsWith l.name "_Front")) ∧
    ((createGpLayers.filter fun l => !l.hide).map GPLayer.name =
      ["Leg_R_Front", "Leg_L_Front", "Arm_R_Front", "Arm_L_Front",
       "Body_Front", "Head_Front"]) := by decide

/-- A Grease Pencil layer as the view/draw operators manipulate it:
name, hide flag, opacity and lock flag. Opacity is embedded as a
rational. -/
structure OpLayer where
  name : String
  hide : Bool
  opacity : ℚ
  lock : Bool
deriving DecidableEq

/-- get_related_rotation_layers from operators/draw_part.py: pick the
rotation set from the part name, and for every rotation other than the
current one emit the layer name of that rotation (with the hand pose
infix when a truthy hand pose is given for a hand part). -/
def get_related_rotation_layers (part currentRotation : String)
    (handPose : Option String) : List String :=
  let emit : String → String := fun rot =>
    match handPose with
    | some hp =>
      if hp ≠ "" ∧ pyStartsWith part "Hand_" then part ++ "_" ++ hp ++ "_" ++ rot
      else part ++ "_" ++ rot
    | none => part ++ "_" ++ rot
  let build : List String → List String := fun rotations =>
    rotations.filterMap fun rot => if rot ≠ currentRotation then some (emit rot) else none
  if part ∈ ["Head", "Chest", "Spine", "Hips"] then build ROTATION_VIEWS_FULL
  else if pyStartsWith part "Hand_" then build HAND_ROTATION_VIEWS
  else if pyStartsWith part "Arm_" || pyStartsWith part "Leg_" || pyStartsWith part "Foot_" then
    build ROTATION_VIEWS_SIMPLE
  else []

/-- Per-layer visibility assignment of PUPPET_OT_view_part.execute: the
target layer is shown at full opacity, an onion-skin layer is shown at
the onion opacity when onion skinning is on, and every other layer is
hidden. -/
def viewPartSet (target : String) (onionEnabled : Bool) (onionOpacity : ℚ)
    (related : List String) (l : OpLayer) : OpLayer :=
  if l.name = target then { l with hide := false, opacity := 1 }
  else if onionEnabled ∧ l.name ∈ related then { l with hide := false, opacity := onionOpacity }
  else { l with hide := true }

/-- Per-layer visibility assignment of PUPPET_OT_draw_part.execute: as
for the view operator, and in addition the target layer is unlocked and
an onion-skin layer is locked. -/
def drawPartSet (target : String) (onionEnabled : Bool) (onionOpacity : ℚ)
    (related : List String) (l : OpLayer) : OpLayer :=
  if l.name = target then { l with hide := false, opacity := 1, lock := false }
  else if onionEnabled ∧ l.name ∈ related then
    { l with hide := false, opacity := onionOpacity, lock := true }
  else { l with hide := true }

/-- Outcome of a view/draw operator run: FINISHED with the updated layer
collection and the active layer name, or CANCELLED. -/
inductive OpResult where
  | finished (layers : List OpLayer) (active : String)
  | cancelled
deriving DecidableEq

/-- PUPPET_OT_view_part.execute on the layer collection of the puppet GP
object, with the selector state passed explicitly: cancel when the
requested layer is absent, otherwise apply the visibility assignment to
every layer and make the requested layer active. -/
def view_part_execute (layers : List OpLayer) (requested part rotation : String)
    (handPose : Option String) (onionEnabled : Bool) (onionOpacity : ℚ) : OpResult :=
  if (layers.find? fun l => l.name = requested).isSome then
    OpResult.finished
      (layers.map (viewPartSet requested onionEnabled onionOpacity
        (get_related_rotation_layers part rotation handPose)))
      requested
  else OpResult.cancelled

/-- PUPPET_OT_draw_part.execute, analogously. -/
def draw_part_execute (layers : List OpLayer) (requested part rotation : String)
    (handPose : Option String) (onionEnabled : Bool) (onionOpacity : ℚ) : OpResult :=
  if (layers.find? fun l => l.name = requested).isSome then
    OpResult.finished
      (layers.map (drawPartSet requested onionEnabled onionOpacity
        (get_related_rotation_layers part rotation handPose)))
      requested
  else OpResult.cancelled

/-- C2: when the target layer name L exists in the layer collection, both
operators finish, and afterwards every layer satisfies exactly one case:
a layer named L is unhidden with opacity 1 (and unlocked by the draw
operator); otherwise, when onion skinning is enabled and the layer's name
is in the related-rotation list of the selected part, it is unhidden with
the onion-skin opacity (and locked by the draw operator); every other
layer is hidden. Names are preserved layer by layer. -/
theorem claim_C2_view_draw_visibility (layers : List OpLayer)
    (L part rotation : String) (handPose : Option String)
    (onionEnabled : Bool) (onionOpacity : ℚ)
    (hL : L ∈ layers.map OpLayer.name) :
    ∃ outV outD,
      view_part_execute layers L part rotation handPose onionEnabled onionOpacity =
        OpResult.finished outV L ∧
      draw_part_execute layers L part rotation handPose onionEnabled onionOpacity =
        OpResult.finished outD L ∧
      outV.length = layers.length ∧ outD.length = layers.length ∧
      (∀ p ∈ layers.zip outV,
        p.2.name = p.1.name ∧
        (if p.1.name = L then p.2.hide = false ∧ p.2.opacity = 1
         else if onionEnabled ∧ p.1.name ∈ get_related_rotation_layers part rotation handPose then
           p.2.hide = false ∧ p.2.opacity = onionOpacity
         else p.2.hide = true)) ∧
      (∀ p ∈ layers.zip outD,
        p.2.name = p.1.name ∧
        (if p.1.name = L then p.2.hide = false ∧ p.2.opacity = 1 ∧ p.2.lock = false
         else if onionEnabled ∧ p.1.name ∈ get_related_rotation_layers part rotation handPose then
           p.2.hide = false ∧ p.2.opacity = onionOpacity ∧ p.2.lock = true
         else p.2.hide = true)) := by
  obtain ⟨l0, hl0, hname0⟩ := List.mem_map.mp hL
  have hfind : (layers.find? fun l => l.name = L).isSome := by
    rw [List.find?_isSome]
    exact ⟨l0, hl0, by simp [hname0]⟩
  set related := get_related_rotation_layers part rotation handPose with hrel
  refine ⟨layers.map (viewPartSet L onionEnabled onionOpacity related),
          layers.map (drawPartSet L onionEnabled onionOpacity related),
          by simp [view_part_execute, hfind], by simp [draw_part_execute, hfind],
          by simp, by simp, ?_, ?_⟩
  all_goals
    have hzip : ∀ (f : OpLayer → OpLayer) (l : List OpLayer),
        l.zip (l.map f) = l.map fun x => (x, f x) := by
      intro f l
      induction l with
      | nil => rfl
      | cons a t ih => simp [ih]
    rw [hzip]
    intro p hp
    obtain ⟨x, hx, rfl⟩ := List.mem_map.mp hp
  · constructor
    · unfold viewPartSet; split_ifs <;> rfl
    · unfold viewPartSet
      by_cases h1 : x.name = L
      · simp [h1]
      · by_cases h2 : onionEnabled = true ∧ x.name ∈ related
        · simp [h1, h2]
        · simp [h1, h2]
  · constructor
    · unfold drawPartSet; split_ifs <;> rfl
    · unfold drawPartSet
      by_cases h1 : x.name = L
      · simp [h1]
      · by_cases h2 : onionEnabled = true ∧ x.name ∈ related
        · simp [h1, h2]
        · simp [h1, h2]

/-- Concrete three-layer collection used to instantiate the operator
theorem. -/
def sampleLayers : List OpLayer :=
  [{ name := "Head_Front", hide := true, opacity := 1, lock := true },
   { name := "Head_Back", hide := true, opacity := 1, lock := false },
   { name := "Body_Front", hide := false, opacity := 1, lock := false }]

/-- C2 witness: the statement at the concrete collection sampleLayers
with target Head_Front, part Head, rotation Front, onion skinning
enabled at opacity 3/10. -/
theorem claim_C2_witness :
    ∃ outV outD : List OpLayer,
      view_part_execute sampleLayers
        "Head_Front" "Head" "Front" none true (3 / 10) = OpResult.finished outV "Head_Front" ∧
      draw_part_execute sampleLayers
        "Head_Front" "Head" "Front" none true (3 / 10) = OpResult.finished outD "Head_Front" ∧
      outV.length = sampleLayers.length ∧ outD.length = sampleLayers.length ∧
      (∀ p ∈ sampleLayers.zip outV,
        p.2.name = p.1.name ∧
        (if p.1.name = "Head_Front" then p.2.hide = false ∧ p.2.opacity = 1
         else if (true : Bool) ∧ p.1.name ∈ get_related_rotation_layers "Head" "Front" none then
           p.2.hide = false ∧ p.2.opacity = 3 / 10
         else p.2.hide = true)) ∧
      (∀ p ∈ sampleLayers.zip outD,
        p.2.name = p.1.name ∧
        (if p.1.name = "Head_Front" then p.2.hide = false ∧ p.2.opacity = 1 ∧ p.2.lock = false
         else if (true : Bool) ∧ p.1.name ∈ get_related_rotation_layers "Head" "Front" none then
           p.2.hide = false ∧ p.2.opacity = 3 / 10 ∧ p.2.lock = true
         else p.2.hide = true)) :=
  claim_C2_view_draw_visibility sampleLayers
    "Head_Front" "Head" "Front" none true (3 / 10) (by decide)

/-- Decimal digit character, as Python number formatting writes digits;
values of ten and more never occur below. -/
def digitChar (d : Nat) : Char :=
  if d = 0 then '0' else if d = 1 then '1' else if d = 2 then '2'
  else if d = 3 then '3' else if d = 4 then '4' else if d = 5 then '5'
  else if d = 6 then '6' else if d = 7 then '7' else if d = 8 then '8'
  else if d = 9 then '9' else '?'

/-- Value of a decimal digit character, the inverse of digitChar on
digits. -/
def digitVal (c : Char) : Nat :=
  if c = '1' then 1 else if c = '2' then 2 else if c = '3' then 3
  else if c = '4' then 4 else if c = '5' then 5 else if c = '6' then 6
  else if c = '7' then 7 else if c = '8' then 8 else if c = '9' then 9
  else 0

/-- Decimal string of a natural number, as Python str() writes it:
most significant digit first. -/
def natStr (n : Nat) : String :=
  if n = 0 then "0" else ((Nat.digits 10 n).reverse.map digitChar).asString

/-- Python format f"{n:03d}": the decimal digits zero-padded on the left
to width three; wider numbers print in full. -/
def pad3 (n : Nat) : String :=
  if (natStr n).length < 3 then
    (List.replicate (3 - (natStr n).length) '0').asString ++ natStr n
  else natStr n

/-- Candidate name that the loop of get_unique_name tries: the base name
with an underscore and the zero-padded counter. -/
def suffixed (base : String) (k : Nat) : String := base ++ "_" ++ pad3 k

/-- While loop of get_unique_name: increment the counter while the
suffixed name is taken, return the first free suffixed name. The fuel
bounds the number of iterations; existing.length + 1 is enough, which is
proved below, so the embedding returns some name exactly as the source
loop terminates. -/
def uniqueNameLoop (base : String) (existing : List String) : Nat → Nat → Option String
  | 0, _ => none
  | fuel + 1, counter =>
    if suffixed base counter ∈ existing then uniqueNameLoop base existing fuel (counter + 1)
    else some (suffixed base counter)

/-- get_unique_name from core/rig_builder.py: the base name itself when
it is not among the existing names, else the first free candidate
base_001, base_002, and so on. -/
def get_unique_name (base : String) (existing : List String) : Option String :=
  if base ∈ existing then uniqueNameLoop base existing (existing.length + 1) 1
  else some base

/-- Decoding of a decimal string back to the number; leading zeros do
not change the value. -/
def natDecode (s : String) : Nat := Nat.ofDigits 10 ((s.data.map digitVal).reverse)

/-- digitVal inverts digitChar on decimal digits. -/
theorem digitVal_digitChar : ∀ d, d < 10 → digitVal (digitChar d) = d := by decide

/-- Mapping digitChar then digitVal over a digit list is the identity. -/
theorem map_digitVal_map_digitChar (l : List Nat) (h : ∀ d ∈ l, d < 10) :
    (l.map digitChar).map digitVal = l := by
  induction l with
  | nil => rfl
  | cons a t ih =>
    simp only [List.map_cons, List.cons.injEq]
    exact ⟨digitVal_digitChar a (h a (List.mem_cons_self a t)),
      ih fun d hd => h d (List.mem_cons_of_mem a hd)⟩

/-- natDecode is a left inverse of natStr. -/
theorem natDecode_natStr (n : Nat) : natDecode (natStr n) = n := by
  by_cases h0 : n = 0
  · subst h0; rfl
  · unfold natStr natDecode
    rw [if_neg h0]
    have hdata : (((Nat.digits 10 n).reverse.map digitChar).asString).data
        = (Nat.digits 10 n).reverse.map digitChar := rfl
    rw [hdata]
    have hlt : ∀ d ∈ (Nat.digits 10 n).reverse, d < 10 := fun d hd =>
      Nat.digits_lt_base (by norm_num) (List.mem_reverse.mp hd)
    rw [map_digitVal_map_digitChar _ hlt, List.reverse_reverse, Nat.ofDigits_digits]

/-- Leading-zero digits contribute nothing to ofDigits. -/
theorem ofDigits_replicate_zero (b j : Nat) : Nat.ofDigits b (List.replicate j 0) = 0 := by
  induction j with
  | zero => rfl
  | succ i ih => simp [List.replicate_succ, Nat.ofDigits_cons, ih]

/-- Prepending zero characters does not change the decoded value. -/
theorem natDecode_zeros_append (j : Nat) (s : String) :
    natDecode ((List.replicate j '0').asString ++ s) = natDecode s := by
  unfold natDecode
  have hdata : ((List.replicate j '0').asString ++ s).data
      = List.replicate j '0' ++ s.data := by
    rw [String.data_append]; rfl
  have h00 : digitVal '0' = 0 := by decide
  rw [hdata, List.map_append, List.reverse_append, List.map_replicate, h00,
    List.reverse_replicate, Nat.ofDigits_append, ofDigits_replicate_zero,
    mul_zero, add_zero]

/-- natDecode also inverts the zero-padded format. -/
theorem natDecode_pad3 (n : Nat) : natDecode (pad3 n) = n := by
  unfold pad3
  split_ifs with h
  · rw [natDecode_zeros_append, natDecode_natStr]
  · exact natDecode_natStr n

/-- The zero-padded format is injective. -/
theorem pad3_injective : Function.Injective pad3 := fun a b h => by
  have hab := congrArg natDecode h
  rwa [natDecode_pad3, natDecode_pad3] at hab

/-- Distinct counters give distinct suffixed candidate names. -/
theorem suffixed_injective (base : String) : Function.Injective (suffixed base) := by
  intro a b h
  unfold suffixed at h
  have hd := congrArg String.data h
  rw [String.data_append, String.data_append] at hd
  exact pad3_injective (String.ext (List.append_cancel_left hd))

/-- Pigeonhole: among the first existing.length + 1 candidates one is
free. -/
theorem exists_free_suffix (base : String) (existing : List String) :
    ∃ j, j < existing.length + 1 ∧ suffixed base (1 + j) ∉ existing := by
  by_contra hcon
  push_neg at hcon
  have hsub : (Finset.range (existing.length + 1)).image (fun j => suffixed base (1 + j))
      ⊆ existing.toFinset := by
    intro x hx
    obtain ⟨j, hj, rfl⟩ := Finset.mem_image.mp hx
    exact List.mem_toFinset.mpr (hcon j (Finset.mem_range.mp hj))
  have hinj : Function.Injective fun j => suffixed base (1 + j) := by
    intro a b hab
    have := suffixed_injective base hab
    omega
  have hcard := Finset.card_le_card hsub
  rw [Finset.card_image_of_injective _ hinj, Finset.card_range] at hcard
  have := existing.toFinset_card_le
  omega

/-- Correctness of the loop: given some free candidate within the fuel,
it returns the first free candidate at or after the starting counter. -/
theorem uniqueNameLoop_spec (base : String) (existing : List String) :
    ∀ fuel counter, (∃ j, j < fuel ∧ suffixed base (counter + j) ∉ existing) →
    ∃ k, uniqueNameLoop base existing fuel counter = some (suffixed base k) ∧
      counter ≤ k ∧ suffixed base k ∉ existing ∧
      ∀ i, counter ≤ i → i < k → suffixed base i ∈ existing := by
  intro fuel
  induction fuel with
  | zero =>
    rintro counter ⟨j, hj, _⟩
    omega
  | succ f ih =>
    rintro counter ⟨j, hj, hfree⟩
    by_cases hmem : suffixed base counter ∈ existing
    · have hj0 : j ≠ 0 := by
        rintro rfl
        rw [Nat.add_zero] at hfree
        exact hfree hmem
      obtain ⟨j', rfl⟩ := Nat.exists_eq_succ_of_ne_zero hj0
      have hex : ∃ j2, j2 < f ∧ suffixed base (counter + 1 + j2) ∉ existing :=
        ⟨j', by omega, by rwa [show counter + 1 + j' = counter + (j' + 1) by omega]⟩
      obtain ⟨k, hloop, hk, hfree2, hmin⟩ := ih (counter + 1) hex
      refine ⟨k, ?_, by omega, hfree2, ?_⟩
      · simpa [uniqueNameLoop, hmem] using hloop
      · intro i h1 h2
        rcases Nat.eq_or_lt_of_le h1 with rfl | hlt
        · exact hmem
        · exact hmin i hlt h2
    · exact ⟨counter, by simp [uniqueNameLoop, hmem], le_refl _, hmem,
        fun i h1 h2 => absurd h1 (by omega)⟩

/-- C8: for every base name and every list of existing names,
get_unique_name terminates with a name that is not among the existing
names; it is the base name itself when that is free, and otherwise the
base suffixed with the smallest positive counter (zero-padded to three
digits) whose suffixed form is free. -/
theorem claim_C8_get_unique_name (base : String) (existing : List String) :
    ∃ r, get_unique_name base existing = some r ∧ r ∉ existing ∧
      (base ∉ existing → r = base) ∧
      (base ∈ existing → ∃ k, 1 ≤ k ∧ r = suffixed base k ∧
        ∀ i, 1 ≤ i → i < k → suffixed base i ∈ existing) := by
  by_cases hb : base ∈ existing
  · obtain ⟨j, hj, hfree⟩ := exists_free_suffix base existing
    obtain ⟨k, hloop, hk1, hkfree, hmin⟩ :=
      uniqueNameLoop_spec base existing (existing.length + 1) 1 ⟨j, hj, hfree⟩
    exact ⟨suffixed base k, by simp [get_unique_name, hb, hloop], hkfree,
      fun h => absurd hb h, fun _ => ⟨k, hk1, rfl, hmin⟩⟩
  · exact ⟨base, by simp [get_unique_name, hb], hb, fun _ => rfl, fun h => absurd h hb⟩

/-- The Grease Pencil object created for a puppet, reduced to the data
the create operator touches. -/
structure GPObject where
  name : String
  layers : List GPLayer
deriving DecidableEq

/-- The armature object created for a puppet, with the custom properties
stored on it by create_puppet. -/
structure ArmatureObject where
  name : String
  puppet_name : String
  is_puppet : Bool
deriving DecidableEq

/-- create_puppet from core/rig_builder.py, reduced to the data the
operator then reads: it builds the Grease Pencil object and the armature
object for the puppet name, stores the custom properties, and returns
the pair (gp_object, armature_object) in that order. -/
def create_puppet (puppet_name : String) : GPObject × ArmatureObject :=
  ({ name := puppet_name, layers := createGpLayers },
   { name := puppet_name ++ "_Rig", puppet_name := puppet_name, is_puppet := true })

/-- Python subscript of a tuple value with a string key: always a
TypeError (tuple indices must be integers or slices, not str). -/
def tupleSubscriptStr {α β : Type} (_t : α × β) (_key : String) : Except String String :=
  Except.error "TypeError: tuple indices must be integers or slices, not str"

/-- Return status of an operator execute method. -/
inductive ExecStatus where
  | finished
  | cancelled
deriving DecidableEq

/-- PUPPET_OT_create_puppet.execute: inside the try block it binds the
value returned by create_puppet (the (gp, armature) tuple) to a single
name and builds the success report from the subscript
result["puppet_name"]; any exception lands in the except branch, which
reports an error and returns CANCELLED. The construction argument is the
outcome of the create_puppet call (ok with the returned tuple, or error
when it raised). -/
def create_puppet_execute (construction : Except String (GPObject × ArmatureObject)) :
    ExecStatus × String :=
  match construction >>= fun result => tupleSubscriptStr result "puppet_name" with
  | .ok name =>
    (ExecStatus.finished,
      "Created puppet " ++ name ++ " with " ++ natStr get_total_drawable_parts
        ++ " drawable parts")
  | .error e => (ExecStatus.cancelled, "Failed to create puppet: " ++ e)

/-- C1: the exception half of the claim holds, but the success half
fails: even when the underlying puppet construction completes without
raising, the operator returns CANCELLED, because execute subscripts the
returned (gp, armature) tuple itself with the string puppet_name, which
raises a TypeError that the catch-all except branch turns into an error
report. -/
theorem claim_C1_create_puppet_execute :
    (∀ pair : GPObject × ArmatureObject,
      (create_puppet_execute (Except.ok pair)).1 = ExecStatus.cancelled) ∧
    (∀ name : String,
      (create_puppet_execute (Except.ok (create_puppet name))).1 = ExecStatus.cancelled) ∧
    (∀ e : String,
      (create_puppet_execute (Except.error e)).1 = ExecStatus.cancelled) :=
  ⟨fun _ => rfl, fun _ => rfl, fun _ => rfl⟩

end PuppetMode
